import Mathlib

/-!
Verification of the OpenShield gateway core (server lifecycle, route/guard
wiring, rate-limit wiring, usage recording) against its natural-language
specification, via a shallow embedding of the Go source in Lean 4.

Source files embedded:
- server/server.go : StartServer, setupOpenAIRoutes, setupRoute
- lib usage recorder (Usage) and the models package.

External collaborators (the chi router internals, the third-party httprate
limiter, the redis counter, the configuration loader, the model catalog and
the database) appear as explicit parameters or as outcome data, exactly at
the boundary where the source calls them.
-/

namespace OpenShield

/-! ## Lifecycle: StartServer (server/server.go, lines 84-150)

StartServer builds the router, then runs two goroutines in an errgroup
created with `errgroup.WithContext`:

- the listener goroutine runs `http.ListenAndServe(addr, router)`; this call
  takes no context and is never shut down, so it returns only when binding or
  serving itself fails, never because the group context was cancelled;
- the signal-watcher goroutine selects on a signal channel (os.Interrupt,
  SIGTERM) and on `ctx.Done()`; on a signal it prints, calls `cancel()` and
  returns nil; on context cancellation it returns `ctx.Err()`.

`g.Wait()` waits for BOTH goroutines and yields the first non-nil error.
We model a run by the two inputs that determine it: whether ListenAndServe
terminates with an error, and whether a termination signal is delivered. -/

/-- Outcome of a goroutine (or of StartServer itself): either it returned,
carrying `none` for a nil error or `some e` for error `e`, or it is blocked
forever and never returns. -/
inductive TaskResult where
  | done (err : Option String)
  | blocked
  deriving DecidableEq, Repr

/-- One run of StartServer, determined by its environment:
`bindErr` is the error with which `http.ListenAndServe` returns
(`none` means the listener binds and serves indefinitely);
`signal` is whether an os.Interrupt/SIGTERM is ever delivered. -/
structure ServerRun where
  bindErr : Option String
  signal : Bool
  deriving DecidableEq, Repr

/-- The listener goroutine (server.go lines 122-126): it returns exactly when
`http.ListenAndServe` returns. ListenAndServe is not passed the group
context and nothing ever shuts the HTTP server down, so with a healthy
listener this goroutine never returns. -/
def listenerTask (r : ServerRun) : TaskResult :=
  match r.bindErr with
  | some e => TaskResult.done (some e)
  | none => TaskResult.blocked

/-- Whether the errgroup context is cancelled by a goroutine error:
`errgroup.WithContext` cancels the context when the first goroutine returns
a non-nil error; here only the listener can do that. -/
def ctxCancelledByError (r : ServerRun) : Bool :=
  r.bindErr.isSome

/-- The signal-watcher goroutine (server.go lines 129-142): select on the
signal channel and on ctx.Done(). On a signal it calls cancel() and returns
nil; on cancellation it returns ctx.Err() (context.Canceled, non-nil);
with neither event it blocks in the select forever. -/
def watcherTask (r : ServerRun) : TaskResult :=
  if r.signal then TaskResult.done none
  else if ctxCancelledByError r then TaskResult.done (some "context canceled")
  else TaskResult.blocked

/-- The error reported by `g.Wait()` once both goroutines have returned: the
first non-nil error. The watcher only returns ctx.Err() after the listener
error was already recorded (that error is what cancelled the context), so
the listener error, when present, is always the first. -/
def firstError (r : ServerRun) : Option String :=
  match r.bindErr with
  | some e => some e
  | none =>
    match watcherTask r with
    | TaskResult.done e => e
    | TaskResult.blocked => none

/-- `g.Wait()` (server.go line 144): waits for both goroutines; if either
never returns, Wait never returns; otherwise it yields the first non-nil
error. -/
def gWait (r : ServerRun) : TaskResult :=
  match listenerTask r, watcherTask r with
  | TaskResult.blocked, _ => TaskResult.blocked
  | _, TaskResult.blocked => TaskResult.blocked
  | TaskResult.done _, TaskResult.done _ => TaskResult.done (firstError r)

/-- StartServer (server.go lines 144-149): returns the error from g.Wait()
if non-nil, else nil; if g.Wait() blocks, StartServer never returns. -/
def StartServer (r : ServerRun) : TaskResult :=
  gWait r

/-! ## Routing and guards (server.go lines 160-199)

`setupOpenAIRoutes` registers the three AI-backend routes, each wrapped in
`lib.AuthOpenShieldMiddleware` and nothing else. `setupRoute` registers a
path wrapped in `r.With(rateLimiter)` and nothing else; it is not called by
the server setup. -/

/-- A guard in a route's middleware chain: the Auth Gate or the Rate
Limiter. -/
inductive Guard where
  | auth
  | rateLimit
  deriving DecidableEq, Repr

instance : BEq Guard := instBEqOfDecidableEq

/-- A registered route: HTTP method, path pattern, and the ordered guard
chain wrapped around its handler. -/
structure Route where
  method : String
  path : String
  guards : List Guard
  deriving DecidableEq, Repr

instance : BEq Route := instBEqOfDecidableEq

/-- setupOpenAIRoutes (server.go lines 160-166): the three registered
AI-backend routes. Each handler is wrapped in AuthOpenShieldMiddleware
only; no rate limiter appears in this wiring. -/
def setupOpenAIRoutes : List Route :=
  [ { method := "GET", path := "/openai/v1/models", guards := [Guard.auth] },
    { method := "GET", path := "/openai/v1/models/{model}", guards := [Guard.auth] },
    { method := "POST", path := "/openai/v1/chat/completions", guards := [Guard.auth] } ]

/-- setupRoute's registration (server.go line 199):
`r.With(rateLimiter).Handle(path, handler)` — the route is wrapped in the
rate limiter only; no auth gate appears in this wiring. -/
def setupRouteRoute (path : String) : Route :=
  { method := "ANY", path := path, guards := [Guard.rateLimit] }

/-- Trace of processing one request through a guard chain: the guards that
actually ran, how many rate-limit counter increments happened, and whether
the handler was reached. -/
structure GuardTrace where
  events : List Guard
  increments : Nat
  handlerInvoked : Bool
  deriving DecidableEq, Repr

/-- Modelled from the spec: `lib.AuthOpenShieldMiddleware` is repository
code outside the provided sources; per the spec the Auth Gate on success
invokes the wrapped handler and on failure short-circuits with an
unauthorized response, never invoking anything downstream. The rate
limiter, when it runs, increments the counter for the requesting client.
`runGuards chain authorized` processes one request through `chain`. -/
def runGuards : List Guard → Bool → GuardTrace
  | [], _ => { events := [], increments := 0, handlerInvoked := true }
  | Guard.auth :: rest, authorized =>
    if authorized then
      let t := runGuards rest authorized
      { events := Guard.auth :: t.events, increments := t.increments,
        handlerInvoked := t.handlerInvoked }
    else
      { events := [Guard.auth], increments := 0, handlerInvoked := false }
  | Guard.rateLimit :: rest, authorized =>
    let t := runGuards rest authorized
    { events := Guard.rateLimit :: t.events, increments := t.increments + 1,
      handlerInvoked := t.handlerInvoked }

/-- `authPrecedesRate chain = true` when in `chain` every Auth Gate
occurrence comes before every Rate Limiter occurrence. -/
def authPrecedesRate : List Guard → Bool
  | [] => true
  | Guard.auth :: rest => authPrecedesRate rest
  | Guard.rateLimit :: rest => !(rest.contains Guard.auth)

/-! ## Rate-limit wiring (server.go lines 168-199)

`setupRoute` reads `routeSettings.RateLimit` = {Max, Expiration, Window},
computes a single duration `Expiration seconds × Window`, and hands the pair
(Max, that duration) to the third-party limiter `httprate.Limit` together
with a redis-backed counter. Only this pair reaches the limiter: the
individual window length and window count are collapsed into their
product. -/

/-- The per-route rate-limit policy as configured (lib.RouteSettings.RateLimit
in the source): Max requests, Expiration = window length in seconds,
Window = number of windows. -/
structure RateLimitSettings where
  Max : Nat
  Expiration : Nat
  Window : Nat
  deriving DecidableEq, Repr

/-- The arguments setupRoute passes to the limiter (server.go lines 169-170,
192-197): the request limit `Max`, and the single window duration
`Expiration × Window` (in seconds; the source multiplies by time.Second). -/
def setupRouteLimiterArgs (rl : RateLimitSettings) : Nat × Nat :=
  (rl.Max, rl.Expiration * rl.Window)

/-- Modelled from the spec: the sub-window count of the claimed algorithm —
given window length W (seconds), window count K, the timestamps (seconds)
of previously admitted requests, and the current time, the sum of the
counters of the trailing K sub-windows. -/
def specSubWindowCount (W K : Nat) (admitted : List Nat) (now : Nat) : Nat :=
  (admitted.filter (fun s => decide (now / W < s / W + K) && decide (s / W ≤ now / W))).length

/-- Modelled from the spec: the claimed admission rule — each admission
increments the current sub-window counter and admits when the sum over the
trailing `Window` sub-windows (this request included) stays within Max. -/
def specSubWindowAdmit (rl : RateLimitSettings) (admitted : List Nat) (now : Nat) : Bool :=
  decide (specSubWindowCount rl.Expiration rl.Window admitted now + 1 ≤ rl.Max)

/-! ## setupRoute construction outcome (server.go lines 172-199)

setupRoute parses the redis URI and constructs the redis-backed counter; on
either failure it panics (lines 174-176, 188-190). The parse result and the
counter-construction result are the collaborators' replies, passed in as
inputs; an unreachable shared store surfaces as an error from
`httprateredis.NewRedisLimitCounter`. -/

/-- What setupRoute does to the process: either it panics with an error, or
it registers the route with the limiter arguments it computed. -/
inductive SetupOutcome where
  | panicked (msg : String)
  | registered (limiterMax : Nat) (limiterWindowSeconds : Nat)
  deriving DecidableEq, Repr

/-- setupRoute (server.go lines 168-199): `parseResult` is the reply of
url.Parse on the configured redis URI, `counterResult` the reply of
NewRedisLimitCounter (an error when the shared store is unreachable). The
source checks each and calls `panic(err)` on error; otherwise it registers
the route with the computed limiter arguments. No fail-open/fail-closed
configuration exists anywhere in this path. -/
def setupRouteOutcome (parseResult : Except String Unit)
    (counterResult : Except String Unit) (rl : RateLimitSettings) : SetupOutcome :=
  match parseResult with
  | Except.error e => SetupOutcome.panicked e
  | Except.ok _ =>
    match counterResult with
    | Except.error e => SetupOutcome.panicked e
    | Except.ok _ =>
      SetupOutcome.registered (setupRouteLimiterArgs rl).1 (setupRouteLimiterArgs rl).2

/-! ## Usage recorder (lib, src/unnamed/part_000)

`Usage` reads the configuration, and when usage logging is enabled resolves
the model name via GetModel; on resolution failure it logs and returns; on
success it builds a models.Usage record and persists it via db.Create. When
logging is disabled it logs and returns. GetConfig, GetModel and DB are
repository code outside the provided sources; they enter the model as the
configuration value, the resolver function, and the list of persisted
records. -/

/-- Usage-logging feature flag (config.Settings.UsageLogging.Enabled). -/
structure UsageLogging where
  Enabled : Bool
  deriving DecidableEq, Repr

/-- The settings slice of the configuration the recorder reads. -/
structure Settings where
  UsageLogging : UsageLogging
  deriving DecidableEq, Repr

/-- The configuration returned by lib.GetConfig, restricted to what Usage
reads. -/
structure Configuration where
  Settings : Settings
  deriving DecidableEq, Repr

/-- The internal model record returned by the model catalog (lib.GetModel);
`Id` is its internal identifier. -/
structure AIModel where
  Id : String
  deriving DecidableEq, Repr

/-- models.Usage — the persisted usage record, fields as in the source. -/
structure UsageRecord where
  ModelID : String
  PredictedTokensCount : Int
  PromptTokensCount : Int
  CompletionTokens : Int
  TotalTokens : Int
  FinishReason : String
  RequestType : String
  deriving DecidableEq, Repr

/-- The observable effects of one Usage call: the log lines written and the
records passed to db.Create, in order. Usage returns nothing to its caller
in the source (func Usage has no return values), so no error can propagate
to the caller: the effects are the whole outcome. -/
structure UsageEffects where
  logs : List String
  persisted : List UsageRecord
  deriving DecidableEq, Repr

/-- lib.Usage (src/unnamed/part_000 lines 8-33). `config` is GetConfig's
reply and `getModel` the model catalog; the db.Create calls are returned in
`persisted`. -/
def Usage (config : Configuration) (getModel : String → Except String AIModel)
    (modelName : String) (predictedTokensCount promptTokensCount completionTokens
    totalTokens : Int) (finishReason requestType : String) : UsageEffects :=
  if config.Settings.UsageLogging.Enabled then
    match getModel modelName with
    | Except.error e => { logs := ["Error: " ++ e], persisted := [] }
    | Except.ok aiModel =>
      { logs := [],
        persisted := [{ ModelID := aiModel.Id,
                        PredictedTokensCount := predictedTokensCount,
                        PromptTokensCount := promptTokensCount,
                        CompletionTokens := completionTokens,
                        TotalTokens := totalTokens,
                        FinishReason := finishReason,
                        RequestType := requestType }] }
  else
    { logs := ["Usage logs is disabled"], persisted := [] }

/-! ## Theorems -/

/-- C1: the claim says a termination signal delivered while the listener is
healthy makes both tasks stop and StartServer return nil. In the source the
signal watcher does stop (returning nil after cancelling the context), but
`http.ListenAndServe` is not tied to the cancellation context and is never
shut down, so the listener goroutine never returns and `g.Wait()` — hence
StartServer — blocks forever. This theorem evaluates the model at the
failing input: healthy listener, signal delivered. -/
theorem C1_signal_listener_never_stops :
    watcherTask { bindErr := none, signal := true } = TaskResult.done none ∧
    listenerTask { bindErr := none, signal := true } = TaskResult.blocked ∧
    StartServer { bindErr := none, signal := true } = TaskResult.blocked :=
  ⟨rfl, rfl, rfl⟩

/-- C5: when the listener task terminates with an error `e` (bind failure or
serving failure), both supervisory tasks exit — whether or not a signal is
ever delivered — and StartServer returns exactly `e`, the first non-nil
error of the two tasks. -/
theorem C5_listener_error_reported (e : String) (sig : Bool) :
    listenerTask { bindErr := some e, signal := sig } = TaskResult.done (some e) ∧
    watcherTask { bindErr := some e, signal := sig } ≠ TaskResult.blocked ∧
    StartServer { bindErr := some e, signal := sig } = TaskResult.done (some e) := by
  cases sig <;>
    simp [listenerTask, watcherTask, StartServer, gWait, firstError, ctxCancelledByError]

/-- C2 counterexample: the claim says the registered AI-backend routes have
the rate limiter applied; in the source setupOpenAIRoutes wraps every
handler in the auth middleware only, so no registered route's guard chain
contains the rate limiter. -/
theorem C2_counterexample :
    (setupOpenAIRoutes.all (fun r => r.guards.contains Guard.rateLimit)) = false := by
  rfl

/-- C2 amended: every registered AI-backend route is guarded by the Auth
Gate alone; the rate-limiter wiring lives only in setupRoute, which attaches
the rate limiter alone (no auth gate) and is never invoked by the server
setup. -/
theorem C2_amended_auth_only (path : String) :
    (setupOpenAIRoutes.all (fun r => r.guards == [Guard.auth])) = true ∧
    (setupRouteRoute path).guards = [Guard.rateLimit] :=
  ⟨rfl, rfl⟩

/-- C3: on every registered route the guard chain never runs a rate limiter
ahead of the auth gate, and a request that fails authentication produces
zero rate-limit counter increments and never reaches the handler (here
because the registered chains contain no rate limiter at all, the auth gate
being the sole guard). -/
theorem C3_auth_denial_zero_increments :
    (setupOpenAIRoutes.all (fun r =>
      authPrecedesRate r.guards
      && ((runGuards r.guards false).increments == 0)
      && !((runGuards r.guards false).handlerInvoked))) = true := by
  rfl

/-- C4 counterexample: setupRoute forwards only the pair
(Max, Expiration × Window) to the limiter, so the limiter's admission
behavior is a function of that pair alone; but the claimed trailing
sub-window algorithm distinguishes policies with equal Max and equal
product — (window 1s × 4) versus (window 2s × 2) differ on a request at
t = 4 s after an admission at t = 1 s. Hence no admission function of what
setupRoute passes can implement the claimed algorithm. -/
theorem C4_counterexample :
    ¬ ∃ codeAdmit : Nat × Nat → List Nat → Nat → Bool,
      ∀ rl : RateLimitSettings,
        codeAdmit (setupRouteLimiterArgs rl) = specSubWindowAdmit rl := by
  rintro ⟨f, hf⟩
  have h1 := hf { Max := 1, Expiration := 1, Window := 4 }
  have h2 := hf { Max := 1, Expiration := 2, Window := 2 }
  have hargs : setupRouteLimiterArgs { Max := 1, Expiration := 1, Window := 4 }
      = setupRouteLimiterArgs { Max := 1, Expiration := 2, Window := 2 } := rfl
  rw [hargs] at h1
  have hc : specSubWindowAdmit { Max := 1, Expiration := 1, Window := 4 } [1] 4
      = specSubWindowAdmit { Max := 1, Expiration := 2, Window := 2 } [1] 4 := by
    rw [← h1, h2]
  exact absurd hc (by decide)

/-- C4 amended: the rate limiter is configured with a single window whose
length is the policy's window length times its window count (the claimed
effective-window size), together with Max; only this pair reaches the
limiter, so two policies with equal Max and equal product are
indistinguishable to it. -/
theorem C4_amended_single_effective_window (p q : RateLimitSettings)
    (hmax : p.Max = q.Max)
    (heff : p.Expiration * p.Window = q.Expiration * q.Window) :
    (setupRouteLimiterArgs p).2 = p.Expiration * p.Window ∧
    setupRouteLimiterArgs p = setupRouteLimiterArgs q := by
  exact ⟨rfl, by simp [setupRouteLimiterArgs, hmax, heff]⟩

/-- C4 amended, witness: two concrete policies with Max 1 and products
1 × 4 = 2 × 2 yield identical limiter arguments. -/
theorem C4_amended_single_effective_window_witness :
    (setupRouteLimiterArgs { Max := 1, Expiration := 1, Window := 4 }).2 = 1 * 4 ∧
    setupRouteLimiterArgs { Max := 1, Expiration := 1, Window := 4 }
      = setupRouteLimiterArgs { Max := 1, Expiration := 2, Window := 2 } :=
  C4_amended_single_effective_window
    { Max := 1, Expiration := 1, Window := 4 }
    { Max := 1, Expiration := 2, Window := 2 } rfl rfl

/-- C6 counterexample: the claim says an unreachable shared store is handled
by a configured fail-open/fail-closed policy and never crashes the process;
in the source, when NewRedisLimitCounter reports the store unreachable,
setupRoute panics with that error, and no such policy is configured
anywhere. Evaluated at a concrete unreachable-store reply. -/
theorem C6_counterexample :
    setupRouteOutcome (Except.ok ()) (Except.error "redis: connection refused")
      { Max := 5, Expiration := 1, Window := 1 }
      = SetupOutcome.panicked "redis: connection refused" :=
  rfl

/-- C6 amended: whenever the redis counter constructor reports the shared
store unreachable, setupRoute panics with that error, for every policy;
there is no fail-open/fail-closed configuration in this path. -/
theorem C6_amended_store_unreachable_panics (e : String) (rl : RateLimitSettings) :
    setupRouteOutcome (Except.ok ()) (Except.error e) rl = SetupOutcome.panicked e :=
  rfl

/-- C8: with usage logging disabled by configuration, Usage never invokes
persistence — the list of records passed to db.Create is empty, whatever
the arguments and whatever the model catalog would answer. -/
theorem C8_disabled_never_persists (config : Configuration)
    (getModel : String → Except String AIModel) (modelName : String)
    (p1 p2 p3 p4 : Int) (fr rt : String)
    (h : config.Settings.UsageLogging.Enabled = false) :
    (Usage config getModel modelName p1 p2 p3 p4 fr rt).persisted = [] := by
  simp [Usage, h]

/-- C8 witness: a concrete disabled configuration, concrete arguments. -/
theorem C8_disabled_never_persists_witness :
    ({ Settings := { UsageLogging := { Enabled := false } } } :
      Configuration).Settings.UsageLogging.Enabled = false ∧
    (Usage { Settings := { UsageLogging := { Enabled := false } } }
      (fun _ => Except.ok { Id := "11111111" }) "gpt-4" 1 2 3 4 "stop"
      "chat").persisted = [] :=
  ⟨rfl, C8_disabled_never_persists _ _ _ _ _ _ _ _ _ rfl⟩

/-- C9: with usage logging enabled and a model name the catalog fails to
resolve, Usage logs the failure and drops the record: persistence receives
nothing and the only effect is the log line. Usage has no return value in
the source, so no error can reach the caller's response path. -/
theorem C9_resolution_failure_dropped (config : Configuration)
    (getModel : String → Except String AIModel) (modelName : String)
    (p1 p2 p3 p4 : Int) (fr rt : String) (e : String)
    (henabled : config.Settings.UsageLogging.Enabled = true)
    (herr : getModel modelName = Except.error e) :
    Usage config getModel modelName p1 p2 p3 p4 fr rt
      = { logs := ["Error: " ++ e], persisted := [] } := by
  simp [Usage, henabled, herr]

/-- C9 witness: a concrete enabled configuration and a catalog that fails to
resolve the given name. -/
theorem C9_resolution_failure_dropped_witness :
    ({ Settings := { UsageLogging := { Enabled := true } } } :
      Configuration).Settings.UsageLogging.Enabled = true ∧
    ((fun _ : String => (Except.error "record not found" : Except String AIModel))
      "unknown-model") = Except.error "record not found" ∧
    Usage { Settings := { UsageLogging := { Enabled := true } } }
      (fun _ => Except.error "record not found") "unknown-model" 1 2 3 4 "stop" "chat"
      = { logs := ["Error: " ++ "record not found"], persisted := [] } :=
  ⟨rfl, rfl, C9_resolution_failure_dropped _ _ _ _ _ _ _ _ _ _ rfl rfl⟩

/-- C10: with usage logging enabled and a model name that resolves, Usage
persists exactly one record whose token counts, finish reason and request
type are the arguments unchanged and whose ModelID is the Id of the
resolved internal model record, not the caller-supplied name. -/
theorem C10_persists_exactly_one (config : Configuration)
    (getModel : String → Except String AIModel) (modelName : String)
    (p1 p2 p3 p4 : Int) (fr rt : String) (m : AIModel)
    (henabled : config.Settings.UsageLogging.Enabled = true)
    (hok : getModel modelName = Except.ok m) :
    (Usage config getModel modelName p1 p2 p3 p4 fr rt).persisted
      = [{ ModelID := m.Id, PredictedTokensCount := p1, PromptTokensCount := p2,
           CompletionTokens := p3, TotalTokens := p4, FinishReason := fr,
           RequestType := rt }] := by
  simp [Usage, henabled, hok]

/-- C10 witness: a concrete enabled configuration and a catalog resolving
the name "gpt-4" to the internal record with Id "model-uuid-1". -/
theorem C10_persists_exactly_one_witness :
    ({ Settings := { UsageLogging := { Enabled := true } } } :
      Configuration).Settings.UsageLogging.Enabled = true ∧
    ((fun _ : String => (Except.ok { Id := "model-uuid-1" } : Except String AIModel))
      "gpt-4") = Except.ok { Id := "model-uuid-1" } ∧
    (Usage { Settings := { UsageLogging := { Enabled := true } } }
      (fun _ => Except.ok { Id := "model-uuid-1" }) "gpt-4" 10 20 30 50 "stop"
      "chat").persisted
      = [{ ModelID := "model-uuid-1", PredictedTokensCount := 10,
           PromptTokensCount := 20, CompletionTokens := 30, TotalTokens := 50,
           FinishReason := "stop", RequestType := "chat" }] :=
  ⟨rfl, rfl, C10_persists_exactly_one _ _ _ _ _ _ _ _ _ _ rfl rfl⟩

end OpenShield
